import Mathlib

/-!
Shallow embedding of the TallyIX mock server core
(`src/server_mock/echo_server.py`): the per-connection protocol session.

Modelling conventions:
* JSON values are modelled by `JsonValue`; JSON numbers are modelled as
  integers (the protocol only ever uses integer sizes and string ids).
* A text frame is a `TextPayload`: the raw character content together with
  the result of `json.loads` on it (`none` when decoding fails).  The JSON
  parser itself is an external library call and is not re-implemented; the
  decode result travels with the frame.
* Python's dynamic typing of `stats.current_binary_expected` (it stores
  whatever `parsed.get("size", 0)` returned) is kept: the field has type
  `JsonValue`.
* An exception escaping a handler is modelled by `HandleResult.ok = false`;
  the partially mutated statistics (mutations made before the raise) are
  kept in the result, as in Python.
* `len` on a Python `str` counts code points, matching `String.length`.
-/

namespace EchoServer

/-- A JSON value as produced by `json.loads` (numbers modelled as integers). -/
inductive JsonValue where
  | null : JsonValue
  | bool (b : Bool) : JsonValue
  | num (n : Int) : JsonValue
  | str (s : String) : JsonValue
  | arr (elems : List JsonValue) : JsonValue
  | obj (fields : List (String × JsonValue)) : JsonValue

/-- Python `==` between a decoded JSON value and a string literal, as in
`msg_type == "hello"`: true exactly when the value is that string (a
non-string value never equals a string in Python). -/
def pyEqStr (v : JsonValue) (s : String) : Bool :=
  match v with
  | .str t => t == s
  | _ => false

/-- Python truthiness of a decoded JSON value (`if parsed:`). -/
def JsonValue.truthy : JsonValue → Bool
  | .null => false
  | .bool b => b
  | .num n => n != 0
  | .str s => s != ""
  | .arr elems => !elems.isEmpty
  | .obj fields => !fields.isEmpty

/-- The integer Python sees when a decoded JSON value is used in integer
arithmetic or comparison: ints are themselves, bools are 0/1, and every
other type raises `TypeError` (`none`). -/
def asPyInt : JsonValue → Option Int
  | .num n => some n
  | .bool b => some (if b then 1 else 0)
  | _ => none

/-- Whether the f-string conversion `f"{v:,}"` succeeds in Python: ints and
bools format, while `str`, `None`, lists and dicts raise. -/
def formatCommaOk (v : JsonValue) : Bool :=
  (asPyInt v).isSome

/-- Simplified Python `repr` of a string: quote choice as in CPython
(single quotes unless the string holds a single quote and no double quote),
escaping the quote, backslashes and common control characters.
Exercised by no protocol path (ids in the protocol are plain strings). -/
def pyReprStrEsc (quote : Char) (s : String) : String :=
  String.join (s.toList.map fun c =>
    if c = quote then "\\" ++ String.singleton c
    else if c = '\\' then "\\\\"
    else if c = '\n' then "\\n"
    else if c = '\r' then "\\r"
    else if c = '\t' then "\\t"
    else String.singleton c)

/-- Python `repr` quoting for strings. -/
def pyReprStr (s : String) : String :=
  if s.contains '\'' && !s.contains '"' then
    "\"" ++ pyReprStrEsc '"' s ++ "\""
  else
    "'" ++ pyReprStrEsc '\'' s ++ "'"

mutual

/-- Python `repr` of a decoded JSON value. -/
def pyRepr : JsonValue → String
  | .null => "None"
  | .bool true => "True"
  | .bool false => "False"
  | .num n => toString n
  | .str s => pyReprStr s
  | .arr elems => "[" ++ pyReprList elems ++ "]"
  | .obj fields => "\x7b" ++ pyReprFields fields ++ "\x7d"

/-- Comma-separated `repr`s of list elements. -/
def pyReprList : List JsonValue → String
  | [] => ""
  | [v] => pyRepr v
  | v :: rest => pyRepr v ++ ", " ++ pyReprList rest

/-- Comma-separated `repr`s of dict entries. -/
def pyReprFields : List (String × JsonValue) → String
  | [] => ""
  | [(k, v)] => pyReprStr k ++ ": " ++ pyRepr v
  | (k, v) :: rest => pyReprStr k ++ ": " ++ pyRepr v ++ ", " ++ pyReprFields rest

end

/-- Python `str()` of a decoded JSON value, as interpolated by an f-string
such as `f"ack_\x7bmsg_id\x7d"`: strings are themselves, everything else
falls back to `repr`. -/
def pyStr : JsonValue → String
  | .str s => s
  | v => pyRepr v

/-- One hex digit (lowercase), as in CPython's `\uXXXX` escapes. -/
def hexDig (n : Nat) : Char :=
  if n < 10 then Char.ofNat (48 + n) else Char.ofNat (97 + (n - 10))

/-- Four lowercase hex digits. -/
def uHex4 (n : Nat) : String :=
  String.mk [hexDig ((n / 4096) % 16), hexDig ((n / 256) % 16),
             hexDig ((n / 16) % 16), hexDig (n % 16)]

/-- `json.dumps` escaping of one character (default `ensure_ascii=True`):
quote, backslash and the short escapes, `\uXXXX` for other characters
outside printable ASCII, surrogate pairs beyond the BMP. -/
def jsonEscChar (c : Char) : String :=
  if c = '"' then "\\\""
  else if c = '\\' then "\\\\"
  else if c = '\n' then "\\n"
  else if c = '\t' then "\\t"
  else if c = '\r' then "\\r"
  else if c.toNat = 8 then "\\b"
  else if c.toNat = 12 then "\\f"
  else if c.toNat < 32 || c.toNat ≥ 127 then
    if c.toNat < 65536 then "\\u" ++ uHex4 c.toNat
    else "\\u" ++ uHex4 (55296 + (c.toNat - 65536) / 1024) ++
         "\\u" ++ uHex4 (56320 + (c.toNat - 65536) % 1024)
  else String.singleton c

/-- `json.dumps` escaping of a string body. -/
def jsonEscape (s : String) : String :=
  String.join (s.toList.map jsonEscChar)

mutual

/-- `json.dumps` with its default separators `", "` and `": "`. -/
def dumps : JsonValue → String
  | .null => "null"
  | .bool true => "true"
  | .bool false => "false"
  | .num n => toString n
  | .str s => "\"" ++ jsonEscape s ++ "\""
  | .arr elems => "[" ++ dumpsList elems ++ "]"
  | .obj fields => "\x7b" ++ dumpsFields fields ++ "\x7d"

/-- Serialized list elements. -/
def dumpsList : List JsonValue → String
  | [] => ""
  | [v] => dumps v
  | v :: rest => dumps v ++ ", " ++ dumpsList rest

/-- Serialized dict entries. -/
def dumpsFields : List (String × JsonValue) → String
  | [] => ""
  | [(k, v)] => "\"" ++ jsonEscape k ++ "\": " ++ dumps v
  | (k, v) :: rest => "\"" ++ jsonEscape k ++ "\": " ++ dumps v ++ ", " ++ dumpsFields rest

end

/-- `ConnectionStats`: statistics for a single connection.  The
`connected_at` timestamp only feeds the session-duration log line and is
out of the model.  `current_binary_expected` stores whatever
`parsed.get("size", 0)` returned, hence its type `JsonValue`. -/
structure ConnectionStats where
  client_id : String
  messages_received : Nat := 0
  messages_sent : Nat := 0
  bytes_received : Nat := 0
  bytes_sent : Nat := 0
  binary_transfers_completed : Nat := 0
  current_binary_expected : JsonValue := .num 0
  current_binary_received : Nat := 0

/-- `ServerStats`: global server statistics (the `started_at` timestamp
only feeds the uptime log line and is out of the model). -/
structure ServerStats where
  total_connections : Nat := 0
  active_connections : Nat := 0
  total_messages : Nat := 0
  total_bytes : Nat := 0

/-- A fresh `ConnectionStats(client_id=client_id)` with dataclass defaults. -/
def ConnectionStats.fresh (client_id : String) : ConnectionStats :=
  { client_id := client_id }

/-- A fresh `ServerStats()` with dataclass defaults. -/
def ServerStats.fresh : ServerStats := {}

/-- A text frame: its raw character content together with the result of
`parse_protocol_message` (= `json.loads`) on it, `none` when decoding
fails.  The decode result is carried with the frame because the JSON
parser is an external library call. -/
structure TextPayload where
  raw : String
  parsed : Option JsonValue

/-- One transport frame, tagged text or binary as by the websocket layer. -/
inductive Frame where
  | text (payload : TextPayload) : Frame
  | binary (data : List Nat) : Frame

/-- `len` of a frame's payload as Python computes it (`len(message)` /
`len(data)`). -/
def frameLen : Frame → Nat
  | .text payload => payload.raw.length
  | .binary data => data.length

/-- Result of one handler invocation: the updated statistics, the replies
sent over the websocket in order, and whether the handler returned
normally (`ok = false` models an exception escaping the handler, with the
mutations made before the raise kept). -/
structure HandleResult where
  stats : ConnectionStats
  server : ServerStats
  replies : List Frame
  ok : Bool

/-- `create_ack_message` builds this record before serializing it:
`msg_id` is interpolated through `str()` while `original_msg_id` keeps the
raw value. -/
def create_ack_record (msg_id : JsonValue) (content : String) : JsonValue :=
  .obj [("type", .str "ack"),
        ("msg_id", .str ("ack_" ++ pyStr msg_id)),
        ("content", .str content),
        ("original_msg_id", msg_id)]

/-- `create_ack_message`: the serialized acknowledgment (`json.dumps` of
the record above). -/
def create_ack_message (msg_id : JsonValue)
    (content : String := "Message received") : String :=
  dumps (create_ack_record msg_id content)

/-- The send-and-count sequence repeated in every text echo branch:
`await websocket.send(message); stats.messages_sent += 1;
stats.bytes_sent += len(message)`. -/
def echoText (stats : ConnectionStats) (server : ServerStats)
    (message : TextPayload) : HandleResult :=
  { stats := { stats with
      messages_sent := stats.messages_sent + 1,
      bytes_sent := stats.bytes_sent + message.raw.length },
    server := server,
    replies := [.text message],
    ok := true }

/-- `handle_text_message`.  The receive counters are bumped first; then the
decoded payload is dispatched.  A truthy decode result that is not a dict
raises `AttributeError` at `parsed.get("type", "unknown")`; a
`binary_start` whose size is not an int or bool raises at the
`f"...\x7bbinary_size:,\x7d bytes"` log line, after the size was already
stored. -/
def handle_text_message (stats : ConnectionStats) (server : ServerStats)
    (message : TextPayload) : HandleResult :=
  let stats := { stats with
    messages_received := stats.messages_received + 1,
    bytes_received := stats.bytes_received + message.raw.length }
  let server := { server with
    total_messages := server.total_messages + 1,
    total_bytes := server.total_bytes + message.raw.length }
  match message.parsed with
  | some parsed =>
    if parsed.truthy then
      match parsed with
      | .obj fields =>
        let msg_type := (fields.lookup "type").getD (.str "unknown")
        let msg_id := (fields.lookup "msg_id").getD (.str "unknown")
        if pyEqStr msg_type "hello" then
          let stats := { stats with
            messages_sent := stats.messages_sent + 1,
            bytes_sent := stats.bytes_sent + message.raw.length }
          let content := "Hello received from " ++ stats.client_id
          let ack := create_ack_message msg_id content
          let stats := { stats with
            messages_sent := stats.messages_sent + 1,
            bytes_sent := stats.bytes_sent + ack.length }
          { stats := stats, server := server,
            replies := [.text message,
                        .text ⟨ack, some (create_ack_record msg_id content)⟩],
            ok := true }
        else if pyEqStr msg_type "binary_start" then
          let binary_size := (fields.lookup "size").getD (.num 0)
          let stats := { stats with
            current_binary_expected := binary_size,
            current_binary_received := 0 }
          if formatCommaOk binary_size then
            echoText stats server message
          else
            { stats := stats, server := server, replies := [], ok := false }
        else if pyEqStr msg_type "ack" then
          echoText stats server message
        else if pyEqStr msg_type "error" then
          echoText stats server message
        else
          echoText stats server message
      | _ => { stats := stats, server := server, replies := [], ok := false }
    else
      echoText stats server message
  | none => echoText stats server message

/-- The send-and-count sequence ending `handle_binary_message`. -/
def echoBinary (stats : ConnectionStats) (server : ServerStats)
    (data : List Nat) : HandleResult :=
  { stats := { stats with
      messages_sent := stats.messages_sent + 1,
      bytes_sent := stats.bytes_sent + data.length },
    server := server,
    replies := [.binary data],
    ok := true }

/-- `handle_binary_message`.  Receive counters and
`current_binary_received` are bumped unconditionally; the comparison
`current_binary_expected > 0` raises `TypeError` when the stored size is
not an int or bool; completion uses `>=` and resets both progress fields
to 0. -/
def handle_binary_message (stats : ConnectionStats) (server : ServerStats)
    (data : List Nat) : HandleResult :=
  let stats := { stats with
    messages_received := stats.messages_received + 1,
    bytes_received := stats.bytes_received + data.length,
    current_binary_received := stats.current_binary_received + data.length }
  let server := { server with
    total_messages := server.total_messages + 1,
    total_bytes := server.total_bytes + data.length }
  match asPyInt stats.current_binary_expected with
  | none => { stats := stats, server := server, replies := [], ok := false }
  | some expected =>
    if 0 < expected then
      let stats :=
        if expected ≤ (stats.current_binary_received : Int) then
          { stats with
            binary_transfers_completed := stats.binary_transfers_completed + 1,
            current_binary_expected := .num 0,
            current_binary_received := 0 }
        else stats
      echoBinary stats server data
    else
      echoBinary stats server data

/-- Dispatch in `handle_connection`'s receive loop:
`isinstance(message, bytes)` selects the binary handler. -/
def handleFrame (stats : ConnectionStats) (server : ServerStats) :
    Frame → HandleResult
  | .text payload => handle_text_message stats server payload
  | .binary data => handle_binary_message stats server data

/-- State after a connection's receive loop has consumed a frame list. -/
structure RunResult where
  stats : ConnectionStats
  server : ServerStats
  ok : Bool

/-- The `async for message in websocket` loop of `handle_connection`:
frames are handled in order; an exception escaping a handler ends the loop
(`ok = false`), keeping the statistics as mutated so far. -/
def runSession (stats : ConnectionStats) (server : ServerStats) :
    List Frame → RunResult
  | [] => ⟨stats, server, true⟩
  | frame :: rest =>
    let r := handleFrame stats server frame
    if r.ok then runSession r.stats r.server rest
    else ⟨r.stats, r.server, false⟩

/-- Semantic message kinds of §4.1 of the design. -/
inductive MsgKind where
  | hello | binary_start | ack | error | unknown | opaque_text | binary
deriving DecidableEq, Repr

/-- The branch `handle_text_message` selects for a text frame, as a
classification: falsy decode results (decode failure, or a falsy JSON
value such as the empty record) take the opaque echo branch; truthy
non-dict results raise (`none`); dicts dispatch on their `type` field with
default `"unknown"`. -/
def classifyText (payload : TextPayload) : Option MsgKind :=
  match payload.parsed with
  | some parsed =>
    if parsed.truthy then
      match parsed with
      | .obj fields =>
        let msg_type := (fields.lookup "type").getD (.str "unknown")
        if pyEqStr msg_type "hello" then some .hello
        else if pyEqStr msg_type "binary_start" then some .binary_start
        else if pyEqStr msg_type "ack" then some .ack
        else if pyEqStr msg_type "error" then some .error
        else some .unknown
      | _ => none
    else some .opaque_text
  | none => some .opaque_text

/-- Kind of a whole frame: binary frames are kind `binary`. -/
def classify : Frame → Option MsgKind
  | .text payload => classifyText payload
  | .binary _ => some .binary

/-- A frame's declared transfer size is a non-negative integer whenever the
frame is a `binary_start` record (the condition is the handler's own
`binary_start` branch condition; non-`binary_start` frames pass). -/
def binaryStartSizeOk (f : Frame) : Bool :=
  match f with
  | .binary _ => true
  | .text payload =>
    match payload.parsed with
    | some (.obj fields) =>
      if pyEqStr ((fields.lookup "type").getD (.str "unknown")) "binary_start" then
        match (fields.lookup "size").getD (.num 0) with
        | .num n => decide (0 ≤ n)
        | _ => false
      else true
    | _ => true

/-- The stored expected size is a non-negative integer. -/
def goodExpected (stats : ConnectionStats) : Prop :=
  ∃ n : Int, 0 ≤ n ∧ stats.current_binary_expected = .num n

/-- An in-progress transfer is never over-full: whenever the expected size
is a positive integer, strictly fewer bytes have accumulated toward it. -/
def noOverfill (stats : ConnectionStats) : Prop :=
  ∀ e : Int, stats.current_binary_expected = .num e → 0 < e →
    (stats.current_binary_received : Int) < e

/-- True exactly on frames the handler treats as `hello`. -/
def isHello (f : Frame) : Bool :=
  classify f == some MsgKind.hello

/-- Number of `hello` frames in a trace. -/
def helloCount (frames : List Frame) : Nat :=
  frames.countP isHello

/-! ## Theorems -/

/-- A successful association-list lookup means the list is nonempty. -/
theorem ne_nil_of_lookup {k : String} {l : List (String × JsonValue)}
    {v : JsonValue} (h : List.lookup k l = some v) : l ≠ [] := by
  intro hl
  subst hl
  simp [List.lookup] at h

/-- A nonempty record is truthy. -/
theorem obj_truthy_of_ne_nil {fields : List (String × JsonValue)}
    (h : fields ≠ []) : (JsonValue.obj fields).truthy = true := by
  cases fields with
  | nil => exact absurd rfl h
  | cons hd tl => rfl

/-- C5: a text frame whose payload is valid JSON but not a JSON object —
here the array `[1]` — reaches `parsed.get("type", "unknown")`, which
raises `AttributeError`: the exception escapes `handle_text_message` and no
reply is sent, contradicting the documented behaviour that undecodable
records are silently echoed.  (The receive counters, bumped before the
raise, are kept.) -/
theorem truthy_nondict_text_raises :
    (handle_text_message (ConnectionStats.fresh "1.2.3.4:5") ServerStats.fresh
      ⟨"[1]", some (.arr [.num 1])⟩).ok = false ∧
    (handle_text_message (ConnectionStats.fresh "1.2.3.4:5") ServerStats.fresh
      ⟨"[1]", some (.arr [.num 1])⟩).replies = [] ∧
    (handle_text_message (ConnectionStats.fresh "1.2.3.4:5") ServerStats.fresh
      ⟨"[1]", some (.arr [.num 1])⟩).stats.messages_received = 1 :=
  ⟨rfl, rfl, rfl⟩

/-- C4 counterexample: the empty record `\x7b\x7d` decodes successfully
into a structured record, yet `if parsed:` is false on an empty dict, so
the handler classifies it as opaque text. -/
theorem empty_record_classified_opaque :
    (⟨"\x7b\x7d", some (.obj [])⟩ : TextPayload).parsed = some (.obj []) ∧
    classifyText ⟨"\x7b\x7d", some (.obj [])⟩ = some .opaque_text :=
  ⟨rfl, rfl⟩

/-- C4 (amended): every NONEMPTY decoded record is classified by its
`type` field — the recognized string values map to their kinds, an absent
or unrecognized `type` maps to `unknown` — and is never classified as
opaque text.  (The empty record is the exception the counterexample
exhibits.) -/
theorem nonempty_record_classification (payload : TextPayload)
    (fields : List (String × JsonValue))
    (hp : payload.parsed = some (.obj fields)) (hne : fields ≠ []) :
    classifyText payload ≠ some .opaque_text ∧
    (fields.lookup "type" = some (.str "hello") →
      classifyText payload = some .hello) ∧
    (fields.lookup "type" = some (.str "binary_start") →
      classifyText payload = some .binary_start) ∧
    (fields.lookup "type" = some (.str "ack") →
      classifyText payload = some .ack) ∧
    (fields.lookup "type" = some (.str "error") →
      classifyText payload = some .error) ∧
    (fields.lookup "type" = none → classifyText payload = some .unknown) ∧
    (∀ t, fields.lookup "type" = some t →
      pyEqStr t "hello" = false → pyEqStr t "binary_start" = false →
      pyEqStr t "ack" = false → pyEqStr t "error" = false →
      classifyText payload = some .unknown) := by
  have htr := obj_truthy_of_ne_nil hne
  unfold classifyText
  rw [hp]
  simp only [htr, if_true]
  refine ⟨?_, ?_, ?_, ?_, ?_, ?_, ?_⟩
  · split
    · simp
    split
    · simp
    split
    · simp
    split <;> simp
  · intro h; simp [h, pyEqStr]
  · intro h; simp [h, pyEqStr]
  · intro h; simp [h, pyEqStr]
  · intro h; simp [h, pyEqStr]
  · intro h; simp [h, pyEqStr]
  · intro t h h1 h2 h3 h4; simp [h, h1, h2, h3, h4]

/-- C4 witness: a record with an unrecognized type is classified
`unknown`, not `opaque_text`. -/
theorem nonempty_record_classification_witness :
    classifyText ⟨"\x7b\"type\": \"bogus\"\x7d",
      some (.obj [("type", .str "bogus")])⟩ ≠ some .opaque_text ∧
    classifyText ⟨"\x7b\"type\": \"bogus\"\x7d",
      some (.obj [("type", .str "bogus")])⟩ = some .unknown := by
  have h := nonempty_record_classification
    ⟨"\x7b\"type\": \"bogus\"\x7d", some (.obj [("type", .str "bogus")])⟩
    [("type", .str "bogus")] rfl (by simp)
  exact ⟨h.1, h.2.2.2.2.2.2 (.str "bogus") rfl rfl rfl rfl rfl⟩

/-- C2: when a transfer is in progress (expected size a positive integer)
and a binary frame makes the accumulated byte count reach or exceed it,
the transfer completes: `binary_transfers_completed` is incremented by
exactly one and both progress fields are reset to 0, so excess bytes are
not carried into a new transfer. -/
theorem binary_completion_on_reaching (stats : ConnectionStats)
    (server : ServerStats) (data : List Nat) (e : Int)
    (he : stats.current_binary_expected = .num e) (hpos : 0 < e)
    (hreach : e ≤ (stats.current_binary_received : Int) + (data.length : Int)) :
    (handle_binary_message stats server data).stats.binary_transfers_completed =
      stats.binary_transfers_completed + 1 ∧
    (handle_binary_message stats server data).stats.current_binary_expected =
      .num 0 ∧
    (handle_binary_message stats server data).stats.current_binary_received = 0 := by
  have hc : e ≤ ((stats.current_binary_received + data.length : Nat) : Int) := by
    push_cast
    exact hreach
  unfold handle_binary_message
  simp only [he, asPyInt]
  rw [if_pos hpos, if_pos hc]
  exact ⟨rfl, rfl, rfl⟩

/-- C2 witness: a transfer expecting 100 bytes with 60 already received
completes on a 50-byte chunk. -/
theorem binary_completion_on_reaching_witness :
    ((handle_binary_message
      { ConnectionStats.fresh "1.2.3.4:5" with
          current_binary_expected := .num 100,
          current_binary_received := 60 }
      ServerStats.fresh (List.replicate 50 7)).stats.binary_transfers_completed = 0 + 1) ∧
    (handle_binary_message
      { ConnectionStats.fresh "1.2.3.4:5" with
          current_binary_expected := .num 100,
          current_binary_received := 60 }
      ServerStats.fresh (List.replicate 50 7)).stats.current_binary_expected = .num 0 ∧
    (handle_binary_message
      { ConnectionStats.fresh "1.2.3.4:5" with
          current_binary_expected := .num 100,
          current_binary_received := 60 }
      ServerStats.fresh (List.replicate 50 7)).stats.current_binary_received = 0 :=
  binary_completion_on_reaching _ _ _ 100 rfl (by norm_num) (by norm_num)

/-- C9: a binary frame arriving while no transfer is announced (expected
size 0) is counted and echoed, but no completion logic applies:
`binary_transfers_completed` is unchanged, the expected size stays 0, and
`current_binary_received` still accumulates the frame's length. -/
theorem binary_without_announcement (stats : ConnectionStats)
    (server : ServerStats) (data : List Nat)
    (he : stats.current_binary_expected = .num 0) :
    (handle_binary_message stats server data).stats.messages_received =
      stats.messages_received + 1 ∧
    (handle_binary_message stats server data).stats.bytes_received =
      stats.bytes_received + data.length ∧
    (handle_binary_message stats server data).server.total_messages =
      server.total_messages + 1 ∧
    (handle_binary_message stats server data).server.total_bytes =
      server.total_bytes + data.length ∧
    (handle_binary_message stats server data).replies = [.binary data] ∧
    (handle_binary_message stats server data).ok = true ∧
    (handle_binary_message stats server data).stats.binary_transfers_completed =
      stats.binary_transfers_completed ∧
    (handle_binary_message stats server data).stats.current_binary_expected =
      .num 0 ∧
    (handle_binary_message stats server data).stats.current_binary_received =
      stats.current_binary_received + data.length := by
  unfold handle_binary_message
  simp only [he, asPyInt]
  rw [if_neg (by omega : ¬ (0 : Int) < 0)]
  exact ⟨rfl, rfl, rfl, rfl, rfl, rfl, rfl, rfl, rfl⟩

/-- C9 witness: a 3-byte binary frame with no announced transfer. -/
theorem binary_without_announcement_witness :
    (handle_binary_message (ConnectionStats.fresh "1.2.3.4:5")
      ServerStats.fresh [1, 2, 3]).replies = [.binary [1, 2, 3]] ∧
    (handle_binary_message (ConnectionStats.fresh "1.2.3.4:5")
      ServerStats.fresh [1, 2, 3]).stats.binary_transfers_completed = 0 ∧
    (handle_binary_message (ConnectionStats.fresh "1.2.3.4:5")
      ServerStats.fresh [1, 2, 3]).stats.current_binary_expected = .num 0 ∧
    (handle_binary_message (ConnectionStats.fresh "1.2.3.4:5")
      ServerStats.fresh [1, 2, 3]).stats.current_binary_received = 0 + 3 := by
  have h := binary_without_announcement (ConnectionStats.fresh "1.2.3.4:5")
    ServerStats.fresh [1, 2, 3] rfl
  exact ⟨h.2.2.2.2.1, h.2.2.2.2.2.2.1, h.2.2.2.2.2.2.2.1, h.2.2.2.2.2.2.2.2⟩

/-- C3 counterexample: on a `hello` frame two replies are sent, yet the
Server Aggregate's `total_messages` grows only by the single received
message — reply sends do not touch the server totals. -/
theorem sends_not_counted_in_server_totals :
    (handleFrame (ConnectionStats.fresh "1.2.3.4:5") ServerStats.fresh
      (.text ⟨"\x7b\"type\": \"hello\", \"msg_id\": \"1\"\x7d",
        some (.obj [("type", .str "hello"), ("msg_id", .str "1")])⟩)).replies.length
      = 2 ∧
    (handleFrame (ConnectionStats.fresh "1.2.3.4:5") ServerStats.fresh
      (.text ⟨"\x7b\"type\": \"hello\", \"msg_id\": \"1\"\x7d",
        some (.obj [("type", .str "hello"), ("msg_id", .str "1")])⟩)).server.total_messages
      = 1 ∧
    ¬ 2 ≤ (handleFrame (ConnectionStats.fresh "1.2.3.4:5") ServerStats.fresh
      (.text ⟨"\x7b\"type\": \"hello\", \"msg_id\": \"1\"\x7d",
        some (.obj [("type", .str "hello"), ("msg_id", .str "1")])⟩)).server.total_messages := by
  refine ⟨rfl, rfl, ?_⟩
  rw [show (handleFrame (ConnectionStats.fresh "1.2.3.4:5") ServerStats.fresh
      (.text ⟨"\x7b\"type\": \"hello\", \"msg_id\": \"1\"\x7d",
        some (.obj [("type", .str "hello"), ("msg_id", .str "1")])⟩)).server.total_messages
      = 1 from rfl]
  omega

/-- C3 (amended): every reply send increments the session's
`messages_sent`/`bytes_sent` by the reply's exact byte length; the Server
Aggregate's `total_messages`/`total_bytes` are incremented only on
receive, by the inbound frame's byte length, never by sends. -/
theorem reply_counting (stats : ConnectionStats) (server : ServerStats)
    (f : Frame) :
    (handleFrame stats server f).stats.messages_sent =
      stats.messages_sent + (handleFrame stats server f).replies.length ∧
    (handleFrame stats server f).stats.bytes_sent =
      stats.bytes_sent + ((handleFrame stats server f).replies.map frameLen).sum ∧
    (handleFrame stats server f).server.total_messages =
      server.total_messages + 1 ∧
    (handleFrame stats server f).server.total_bytes =
      server.total_bytes + frameLen f := by
  cases f with
  | text payload =>
    simp only [handleFrame, handle_text_message, echoText, frameLen]
    repeat' split
    all_goals simp [frameLen]
    all_goals omega
  | binary data =>
    simp only [handleFrame, handle_binary_message, echoBinary, frameLen]
    repeat' split
    all_goals simp [frameLen]

/-- C1: a text frame decoding to a record of type `hello` with msg_id M
gets exactly two replies, in order: the original frame verbatim, then a
synthesized acknowledgment record whose `type` is `"ack"`, whose `msg_id`
is `"ack_" ++ M`, and whose `original_msg_id` is M. -/
theorem hello_sends_echo_then_ack (stats : ConnectionStats)
    (server : ServerStats) (payload : TextPayload)
    (fields : List (String × JsonValue)) (M : String)
    (hp : payload.parsed = some (.obj fields))
    (ht : fields.lookup "type" = some (.str "hello"))
    (hm : fields.lookup "msg_id" = some (.str M)) :
    ∃ ackPayload : TextPayload,
      (handle_text_message stats server payload).replies =
        [.text payload, .text ackPayload] ∧
      ∃ ackFields : List (String × JsonValue),
        ackPayload.parsed = some (.obj ackFields) ∧
        ackFields.lookup "type" = some (.str "ack") ∧
        ackFields.lookup "msg_id" = some (.str ("ack_" ++ M)) ∧
        ackFields.lookup "original_msg_id" = some (.str M) := by
  have htr := obj_truthy_of_ne_nil (ne_nil_of_lookup ht)
  refine ⟨⟨create_ack_message (.str M)
            ("Hello received from " ++ stats.client_id),
           some (create_ack_record (.str M)
            ("Hello received from " ++ stats.client_id))⟩, ?_, ?_⟩
  · simp only [handle_text_message, hp, htr, if_true, ht, hm,
      Option.getD_some, pyEqStr]
    simp
  · exact ⟨_, rfl, rfl, rfl, rfl⟩

/-- C1 witness: the concrete hello record with msg_id "42" gets two
replies, the first being the original frame. -/
theorem hello_sends_echo_then_ack_witness :
    (handle_text_message (ConnectionStats.fresh "1.2.3.4:5") ServerStats.fresh
      ⟨"\x7b\"type\": \"hello\", \"msg_id\": \"42\"\x7d",
        some (.obj [("type", .str "hello"), ("msg_id", .str "42")])⟩).replies.length
      = 2 ∧
    (handle_text_message (ConnectionStats.fresh "1.2.3.4:5") ServerStats.fresh
      ⟨"\x7b\"type\": \"hello\", \"msg_id\": \"42\"\x7d",
        some (.obj [("type", .str "hello"), ("msg_id", .str "42")])⟩).replies.head?
      = some (.text ⟨"\x7b\"type\": \"hello\", \"msg_id\": \"42\"\x7d",
        some (.obj [("type", .str "hello"), ("msg_id", .str "42")])⟩) := by
  obtain ⟨ackPayload, h1, -⟩ :=
    hello_sends_echo_then_ack (ConnectionStats.fresh "1.2.3.4:5")
      ServerStats.fresh
      ⟨"\x7b\"type\": \"hello\", \"msg_id\": \"42\"\x7d",
        some (.obj [("type", .str "hello"), ("msg_id", .str "42")])⟩
      [("type", .str "hello"), ("msg_id", .str "42")] "42" rfl rfl rfl
  rw [h1]
  exact ⟨rfl, rfl⟩

/-- A binary frame is either echoed verbatim as the only reply, or the
handler raised. -/
theorem handle_binary_message_replies (stats : ConnectionStats)
    (server : ServerStats) (data : List Nat) :
    (handle_binary_message stats server data).replies = [.binary data] ∨
    (handle_binary_message stats server data).ok = false := by
  unfold handle_binary_message echoBinary
  dsimp only
  split
  · right; rfl
  · split <;> left <;> rfl

/-- A text frame not handled as `hello` whose handling completes is echoed
verbatim as the only reply. -/
theorem text_non_hello_echo (stats : ConnectionStats) (server : ServerStats)
    (payload : TextPayload)
    (hk : classifyText payload ≠ some MsgKind.hello)
    (hok : (handle_text_message stats server payload).ok = true) :
    (handle_text_message stats server payload).replies = [.text payload] := by
  unfold handle_text_message echoText at hok ⊢
  unfold classifyText at hk
  rcases hP : payload.parsed with _ | parsed
  · simp [hP]
  · simp only [hP] at hk hok ⊢
    cases htr : parsed.truthy with
    | false =>
      simp only [htr, Bool.false_eq_true, if_false] at hok ⊢
    | true =>
      simp only [htr, if_true] at hk hok ⊢
      cases parsed with
      | obj fields =>
        by_cases hHello :
            pyEqStr ((fields.lookup "type").getD (.str "unknown")) "hello" = true
        · exact absurd (by simp [hHello]) hk
        · simp only [hHello, Bool.false_eq_true, if_false] at hok ⊢
          repeat' split
          all_goals first | rfl | simp_all
      | null => simp at hok
      | bool b => simp at hok
      | num n => simp at hok
      | str s => simp at hok
      | arr elems => simp at hok

/-- C8 counterexample: a frame of kind `binary_start` whose declared size
is the string `"x"` gets NO reply: the size is stored, then the
`f"...:,..."` log interpolation raises `ValueError`, escaping the handler
before the echo. -/
theorem binary_start_bad_size_sends_nothing :
    classify (.text ⟨"\x7b\"type\": \"binary_start\", \"size\": \"x\"\x7d",
      some (.obj [("type", .str "binary_start"), ("size", .str "x")])⟩)
      = some .binary_start ∧
    (handleFrame (ConnectionStats.fresh "1.2.3.4:5") ServerStats.fresh
      (.text ⟨"\x7b\"type\": \"binary_start\", \"size\": \"x\"\x7d",
        some (.obj [("type", .str "binary_start"), ("size", .str "x")])⟩)).replies
      = [] ∧
    (handleFrame (ConnectionStats.fresh "1.2.3.4:5") ServerStats.fresh
      (.text ⟨"\x7b\"type\": \"binary_start\", \"size\": \"x\"\x7d",
        some (.obj [("type", .str "binary_start"), ("size", .str "x")])⟩)).ok
      = false :=
  ⟨rfl, rfl, rfl⟩

/-- C8 (amended): every inbound frame not of kind `hello` whose handling
completes without an internal fault gets exactly one reply, byte-identical
to the inbound frame.  (A `binary_start` with a non-numeric declared size
faults mid-handling and sends nothing, as the counterexample shows.) -/
theorem non_hello_single_echo (stats : ConnectionStats)
    (server : ServerStats) (f : Frame) (k : MsgKind)
    (hk : classify f = some k) (hne : k ≠ MsgKind.hello)
    (hok : (handleFrame stats server f).ok = true) :
    (handleFrame stats server f).replies = [f] := by
  cases f with
  | text payload =>
    have hkt : classifyText payload ≠ some MsgKind.hello := by
      simp only [classify] at hk
      rw [hk]
      intro hcon
      exact hne (by injection hcon)
    exact text_non_hello_echo stats server payload hkt hok
  | binary data =>
    rcases handle_binary_message_replies stats server data with h | h
    · exact h
    · rw [show handleFrame stats server (.binary data) =
        handle_binary_message stats server data from rfl] at hok
      rw [h] at hok
      exact absurd hok (by simp)

/-- C8 witness: a concrete `ack` record is echoed back as the single
reply. -/
theorem non_hello_single_echo_witness :
    (handleFrame (ConnectionStats.fresh "1.2.3.4:5") ServerStats.fresh
      (.text ⟨"\x7b\"type\": \"ack\", \"msg_id\": \"7\"\x7d",
        some (.obj [("type", .str "ack"), ("msg_id", .str "7")])⟩)).replies
      = [.text ⟨"\x7b\"type\": \"ack\", \"msg_id\": \"7\"\x7d",
        some (.obj [("type", .str "ack"), ("msg_id", .str "7")])⟩] :=
  non_hello_single_echo (ConnectionStats.fresh "1.2.3.4:5") ServerStats.fresh
    (.text ⟨"\x7b\"type\": \"ack\", \"msg_id\": \"7\"\x7d",
      some (.obj [("type", .str "ack"), ("msg_id", .str "7")])⟩)
    MsgKind.ack rfl (by simp) rfl

/-- A binary step either raised or received one message and sent one. -/
theorem binary_step_counters (stats : ConnectionStats) (server : ServerStats)
    (data : List Nat) :
    (handle_binary_message stats server data).ok = false ∨
    ((handle_binary_message stats server data).stats.messages_received =
        stats.messages_received + 1 ∧
     (handle_binary_message stats server data).stats.messages_sent =
        stats.messages_sent + 1) := by
  unfold handle_binary_message echoBinary
  dsimp only
  split
  · left; rfl
  · right
    repeat' split
    all_goals exact ⟨rfl, rfl⟩

/-- A text step handled as `hello` receives one message and sends two. -/
theorem text_step_hello (stats : ConnectionStats) (server : ServerStats)
    (payload : TextPayload)
    (hh : classifyText payload = some MsgKind.hello) :
    (handle_text_message stats server payload).stats.messages_received =
      stats.messages_received + 1 ∧
    (handle_text_message stats server payload).stats.messages_sent =
      stats.messages_sent + 2 := by
  unfold handle_text_message echoText
  unfold classifyText at hh
  rcases hP : payload.parsed with _ | parsed
  · simp [hP] at hh
  · simp only [hP] at hh ⊢
    cases htr : parsed.truthy with
    | false => simp [htr] at hh
    | true =>
      simp only [htr, if_true] at hh ⊢
      cases parsed with
      | obj fields =>
        by_cases hHello :
            pyEqStr ((fields.lookup "type").getD (.str "unknown")) "hello" = true
        · simp [hHello]
        · simp only [hHello, Bool.false_eq_true, if_false] at hh
          repeat' split at hh
          all_goals simp_all
      | null => simp at hh
      | bool b => simp at hh
      | num n => simp at hh
      | str s => simp at hh
      | arr elems => simp at hh

/-- A completed text step not handled as `hello` receives one message and
sends one. -/
theorem text_step_non_hello (stats : ConnectionStats) (server : ServerStats)
    (payload : TextPayload)
    (hk : classifyText payload ≠ some MsgKind.hello)
    (hok : (handle_text_message stats server payload).ok = true) :
    (handle_text_message stats server payload).stats.messages_received =
      stats.messages_received + 1 ∧
    (handle_text_message stats server payload).stats.messages_sent =
      stats.messages_sent + 1 := by
  unfold handle_text_message echoText at hok ⊢
  unfold classifyText at hk
  rcases hP : payload.parsed with _ | parsed
  · simp [hP]
  · simp only [hP] at hk hok ⊢
    cases htr : parsed.truthy with
    | false => simp [htr]
    | true =>
      simp only [htr, if_true] at hk hok ⊢
      cases parsed with
      | obj fields =>
        by_cases hHello :
            pyEqStr ((fields.lookup "type").getD (.str "unknown")) "hello" = true
        · exact absurd (by simp [hHello]) hk
        · simp only [hHello, Bool.false_eq_true, if_false] at hok ⊢
          repeat' split
          all_goals simp_all
      | null => simp at hok
      | bool b => simp at hok
      | num n => simp at hok
      | str s => simp at hok
      | arr elems => simp at hok

/-- One completed handler step receives one message and sends two replies
on a `hello` frame, one reply otherwise. -/
theorem step_message_counters (stats : ConnectionStats) (server : ServerStats)
    (f : Frame) (hok : (handleFrame stats server f).ok = true) :
    (handleFrame stats server f).stats.messages_received =
      stats.messages_received + 1 ∧
    (handleFrame stats server f).stats.messages_sent =
      stats.messages_sent + (if isHello f then 2 else 1) := by
  cases f with
  | text payload =>
    by_cases hh : classifyText payload = some MsgKind.hello
    · have hH : isHello (.text payload) = true := by
        simp [isHello, classify, hh]
      rw [hH, if_pos rfl]
      exact text_step_hello stats server payload hh
    · have hH : isHello (.text payload) = false := by
        simp [isHello, classify, hh]
      rw [hH]
      simp only [Bool.false_eq_true, if_false]
      exact text_step_non_hello stats server payload hh hok
  | binary data =>
    have hH : isHello (.binary data) = false := by
      simp [isHello, classify]
    rw [hH]
    simp only [Bool.false_eq_true, if_false]
    rcases binary_step_counters stats server data with h | h
    · exact absurd (h ▸ hok) (by simp)
    · exact h

/-- Over a trace whose steps all complete, `messages_received` grows by
the number of frames and `messages_sent` by that number plus the number
of `hello` frames. -/
theorem run_message_counters (frames : List Frame) :
    ∀ (stats : ConnectionStats) (server : ServerStats),
    (runSession stats server frames).ok = true →
    (runSession stats server frames).stats.messages_received =
      stats.messages_received + frames.length ∧
    (runSession stats server frames).stats.messages_sent =
      stats.messages_sent + frames.length + helloCount frames := by
  induction frames with
  | nil => intro stats server _; simp [runSession, helloCount]
  | cons f rest ih =>
    intro stats server hok
    simp only [runSession] at hok ⊢
    by_cases hfok : (handleFrame stats server f).ok = true
    · simp only [hfok, if_true] at hok ⊢
      obtain ⟨h1, h2⟩ := step_message_counters stats server f hfok
      obtain ⟨h3, h4⟩ := ih (handleFrame stats server f).stats
        (handleFrame stats server f).server hok
      refine ⟨?_, ?_⟩
      · rw [h3, h1]
        simp [Nat.add_assoc, Nat.add_comm 1 rest.length]
      · rw [h4, h2]
        simp only [helloCount, List.countP_cons]
        by_cases hh : isHello f = true
        · simp only [hh, if_true]
          simp [helloCount]
          omega
        · simp only [Bool.not_eq_true] at hh
          simp [hh, helloCount]
          omega
    · simp only [Bool.not_eq_true] at hfok
      rw [hfok] at hok
      simp at hok

/-- C7: for every session started fresh and every trace of frames whose
handling all completes, `messages_sent` exceeds `messages_received` by
exactly the number of `hello` frames received (each `hello` contributes
one extra reply beyond its echo). -/
theorem sent_minus_received_eq_hellos (client : String) (frames : List Frame)
    (hok : (runSession (ConnectionStats.fresh client) ServerStats.fresh
      frames).ok = true) :
    (runSession (ConnectionStats.fresh client) ServerStats.fresh
      frames).stats.messages_sent =
    (runSession (ConnectionStats.fresh client) ServerStats.fresh
      frames).stats.messages_received + helloCount frames := by
  obtain ⟨h1, h2⟩ := run_message_counters frames
    (ConnectionStats.fresh client) ServerStats.fresh hok
  rw [h1, h2]
  simp [ConnectionStats.fresh]

/-- C7 witness: a hello frame, an opaque text frame and a binary frame
give 4 sends for 3 receives — one extra for the single hello. -/
theorem sent_minus_received_eq_hellos_witness :
    (runSession (ConnectionStats.fresh "1.2.3.4:5") ServerStats.fresh
      [.text ⟨"\x7b\"type\": \"hello\", \"msg_id\": \"1\"\x7d",
        some (.obj [("type", .str "hello"), ("msg_id", .str "1")])⟩,
       .text ⟨"not json", none⟩,
       .binary [9, 9]]).stats.messages_sent =
    (runSession (ConnectionStats.fresh "1.2.3.4:5") ServerStats.fresh
      [.text ⟨"\x7b\"type\": \"hello\", \"msg_id\": \"1\"\x7d",
        some (.obj [("type", .str "hello"), ("msg_id", .str "1")])⟩,
       .text ⟨"not json", none⟩,
       .binary [9, 9]]).stats.messages_received +
      helloCount
        [.text ⟨"\x7b\"type\": \"hello\", \"msg_id\": \"1\"\x7d",
          some (.obj [("type", .str "hello"), ("msg_id", .str "1")])⟩,
         .text ⟨"not json", none⟩,
         .binary [9, 9]] :=
  sent_minus_received_eq_hellos "1.2.3.4:5"
    [.text ⟨"\x7b\"type\": \"hello\", \"msg_id\": \"1\"\x7d",
      some (.obj [("type", .str "hello"), ("msg_id", .str "1")])⟩,
     .text ⟨"not json", none⟩,
     .binary [9, 9]] rfl

/-- A binary step with no announced transfer completes normally, leaves
the expected size at 0 and accumulates the chunk length. -/
theorem binary_step_no_transfer (stats : ConnectionStats)
    (server : ServerStats) (data : List Nat)
    (he : stats.current_binary_expected = .num 0) :
    (handle_binary_message stats server data).ok = true ∧
    (handle_binary_message stats server data).stats.current_binary_expected
      = .num 0 ∧
    (handle_binary_message stats server data).stats.current_binary_received
      = stats.current_binary_received + data.length ∧
    (handle_binary_message stats server data).stats.binary_transfers_completed
      = stats.binary_transfers_completed := by
  unfold handle_binary_message echoBinary
  simp only [he, asPyInt]
  rw [if_neg (by omega : ¬ (0 : Int) < 0)]
  exact ⟨rfl, rfl, rfl, rfl⟩

/-- A binary step of an in-progress transfer that stays strictly below the
expected size completes normally without finishing the transfer. -/
theorem binary_step_progress (stats : ConnectionStats) (server : ServerStats)
    (data : List Nat) (S : Int)
    (he : stats.current_binary_expected = .num S) (hpos : 0 < S)
    (hlt : ((stats.current_binary_received + data.length : Nat) : Int) < S) :
    (handle_binary_message stats server data).ok = true ∧
    (handle_binary_message stats server data).stats.current_binary_expected
      = .num S ∧
    (handle_binary_message stats server data).stats.current_binary_received
      = stats.current_binary_received + data.length ∧
    (handle_binary_message stats server data).stats.binary_transfers_completed
      = stats.binary_transfers_completed := by
  unfold handle_binary_message echoBinary
  simp only [he, asPyInt]
  rw [if_pos hpos, if_neg (not_le.mpr hlt)]
  exact ⟨rfl, rfl, rfl, rfl⟩

/-- A binary step of an in-progress transfer that reaches the expected
size completes the transfer and resets the progress fields. -/
theorem binary_step_completes (stats : ConnectionStats) (server : ServerStats)
    (data : List Nat) (S : Int)
    (he : stats.current_binary_expected = .num S) (hpos : 0 < S)
    (hge : S ≤ ((stats.current_binary_received + data.length : Nat) : Int)) :
    (handle_binary_message stats server data).ok = true ∧
    (handle_binary_message stats server data).stats.current_binary_expected
      = .num 0 ∧
    (handle_binary_message stats server data).stats.current_binary_received
      = 0 ∧
    (handle_binary_message stats server data).stats.binary_transfers_completed
      = stats.binary_transfers_completed + 1 := by
  unfold handle_binary_message echoBinary
  simp only [he, asPyInt]
  rw [if_pos hpos, if_pos hge]
  exact ⟨rfl, rfl, rfl, rfl⟩

/-- Binary chunks of total length 0 arriving with no announced transfer
leave the transfer fields untouched. -/
theorem run_zero_chunks (chunks : List (List Nat)) :
    ∀ (stats : ConnectionStats) (server : ServerStats),
    stats.current_binary_expected = .num 0 →
    stats.current_binary_received = 0 →
    (chunks.map List.length).sum = 0 →
    (runSession stats server (chunks.map Frame.binary)).ok = true ∧
    (runSession stats server
      (chunks.map Frame.binary)).stats.binary_transfers_completed
      = stats.binary_transfers_completed ∧
    (runSession stats server
      (chunks.map Frame.binary)).stats.current_binary_expected = .num 0 ∧
    (runSession stats server
      (chunks.map Frame.binary)).stats.current_binary_received = 0 := by
  induction chunks with
  | nil => intro stats server he hr _; exact ⟨rfl, rfl, he, hr⟩
  | cons c rest ih =>
    intro stats server he hr hsum
    simp only [List.map_cons, List.sum_cons] at hsum
    have hc : c.length = 0 := by omega
    have hrest : (rest.map List.length).sum = 0 := by omega
    obtain ⟨o1, e1, r1, c1⟩ := binary_step_no_transfer stats server c he
    simp only [List.map_cons, runSession, handleFrame, o1, if_true]
    have hr' :
        (handle_binary_message stats server c).stats.current_binary_received
          = 0 := by
      rw [r1, hr, hc]
    obtain ⟨z1, z2, z3, z4⟩ := ih _ _ e1 hr' hrest
    exact ⟨z1, by rw [z2, c1], z3, z4⟩

/-- Binary chunks whose lengths make the accumulated count land exactly on
the expected size complete exactly one transfer and reset both progress
fields. -/
theorem run_chunks_complete (chunks : List (List Nat)) :
    ∀ (stats : ConnectionStats) (server : ServerStats) (S : Int),
    stats.current_binary_expected = .num S → 0 < S →
    ((stats.current_binary_received : Nat) : Int) < S →
    ((stats.current_binary_received : Nat) : Int) +
      (((chunks.map List.length).sum : Nat) : Int) = S →
    (runSession stats server (chunks.map Frame.binary)).ok = true ∧
    (runSession stats server
      (chunks.map Frame.binary)).stats.binary_transfers_completed
      = stats.binary_transfers_completed + 1 ∧
    (runSession stats server
      (chunks.map Frame.binary)).stats.current_binary_expected = .num 0 ∧
    (runSession stats server
      (chunks.map Frame.binary)).stats.current_binary_received = 0 := by
  induction chunks with
  | nil =>
    intro stats server S _ _ hlt hsum
    simp only [List.map_nil, List.sum_nil] at hsum
    omega
  | cons c rest ih =>
    intro stats server S he hpos hlt hsum
    simp only [List.map_cons, List.sum_cons] at hsum
    simp only [List.map_cons, runSession, handleFrame]
    by_cases hreach : S ≤ ((stats.current_binary_received + c.length : Nat) : Int)
    · obtain ⟨o1, e1, r1, c1⟩ := binary_step_completes stats server c S he hpos hreach
      simp only [o1, if_true]
      have hz : (rest.map List.length).sum = 0 := by
        rw [Nat.cast_add] at hsum hreach
        omega
      obtain ⟨z1, z2, z3, z4⟩ := run_zero_chunks rest _ _ e1 r1 hz
      exact ⟨z1, by rw [z2, c1], z3, z4⟩
    · push_neg at hreach
      obtain ⟨o1, e1, r1, c1⟩ := binary_step_progress stats server c S he hpos hreach
      simp only [o1, if_true]
      have hlt' :
          (((handle_binary_message stats server c).stats.current_binary_received : Nat) : Int)
            < S := by
        rw [r1]; exact hreach
      have hsum' :
          (((handle_binary_message stats server c).stats.current_binary_received : Nat) : Int) +
            (((rest.map List.length).sum : Nat) : Int) = S := by
        rw [r1, Nat.cast_add]
        rw [Nat.cast_add] at hsum
        omega
      obtain ⟨z1, z2, z3, z4⟩ := ih _ _ S e1 hpos hlt' hsum'
      exact ⟨z1, by rw [z2, c1], z3, z4⟩

/-- A `binary_start` record with a formattable size completes normally,
stores the declared size, zeroes the progress count and leaves the
completion count alone. -/
theorem binary_start_step (stats : ConnectionStats) (server : ServerStats)
    (payload : TextPayload) (fields : List (String × JsonValue))
    (size : JsonValue)
    (hp : payload.parsed = some (.obj fields))
    (ht : fields.lookup "type" = some (.str "binary_start"))
    (hs : (fields.lookup "size").getD (.num 0) = size)
    (hfmt : formatCommaOk size = true) :
    (handle_text_message stats server payload).ok = true ∧
    (handle_text_message stats server payload).stats.current_binary_expected
      = size ∧
    (handle_text_message stats server payload).stats.current_binary_received
      = 0 ∧
    (handle_text_message stats server payload).stats.binary_transfers_completed
      = stats.binary_transfers_completed := by
  have htr := obj_truthy_of_ne_nil (ne_nil_of_lookup ht)
  unfold handle_text_message echoText
  simp only [hp, htr, if_true, ht, Option.getD_some, pyEqStr, hs, hfmt]
  simp

/-- C6: a session receiving a `binary_start` declaring size S > 0 followed
by binary chunks whose lengths sum to exactly S completes exactly one
transfer: `binary_transfers_completed` grows by 1 and both
`current_binary_expected` and `current_binary_received` return to 0. -/
theorem exact_transfer_completes (stats : ConnectionStats)
    (server : ServerStats) (payload : TextPayload)
    (fields : List (String × JsonValue)) (S : Int)
    (chunks : List (List Nat))
    (hp : payload.parsed = some (.obj fields))
    (ht : fields.lookup "type" = some (.str "binary_start"))
    (hs : fields.lookup "size" = some (.num S))
    (hpos : 0 < S)
    (hsum : (((chunks.map List.length).sum : Nat) : Int) = S) :
    (runSession stats server (.text payload :: chunks.map Frame.binary)).ok
      = true ∧
    (runSession stats server
      (.text payload :: chunks.map Frame.binary)).stats.binary_transfers_completed
      = stats.binary_transfers_completed + 1 ∧
    (runSession stats server
      (.text payload :: chunks.map Frame.binary)).stats.current_binary_expected
      = .num 0 ∧
    (runSession stats server
      (.text payload :: chunks.map Frame.binary)).stats.current_binary_received
      = 0 := by
  obtain ⟨o1, e1, r1, c1⟩ := binary_start_step stats server payload fields
    (.num S) hp ht (by rw [hs]; rfl) rfl
  simp only [runSession, handleFrame, o1, if_true]
  have hlt :
      (((handle_text_message stats server payload).stats.current_binary_received : Nat) : Int)
        < S := by
    rw [r1]; exact_mod_cast hpos
  have hsum' :
      (((handle_text_message stats server payload).stats.current_binary_received : Nat) : Int) +
        (((chunks.map List.length).sum : Nat) : Int) = S := by
    rw [r1, hsum]
    simp
  obtain ⟨z1, z2, z3, z4⟩ := run_chunks_complete chunks _ _ S e1 hpos hlt hsum'
  exact ⟨z1, by rw [z2, c1], z3, z4⟩

/-- C6 witness: `binary_start` with size 10 followed by chunks of 7 and 3
bytes completes exactly one transfer and resets the progress fields. -/
theorem exact_transfer_completes_witness :
    (runSession (ConnectionStats.fresh "1.2.3.4:5") ServerStats.fresh
      (.text ⟨"\x7b\"type\": \"binary_start\", \"msg_id\": \"2\", \"size\": 10\x7d",
        some (.obj [("type", .str "binary_start"), ("msg_id", .str "2"),
                    ("size", .num 10)])⟩ ::
        [List.replicate 7 1, List.replicate 3 2].map Frame.binary)).ok = true ∧
    (runSession (ConnectionStats.fresh "1.2.3.4:5") ServerStats.fresh
      (.text ⟨"\x7b\"type\": \"binary_start\", \"msg_id\": \"2\", \"size\": 10\x7d",
        some (.obj [("type", .str "binary_start"), ("msg_id", .str "2"),
                    ("size", .num 10)])⟩ ::
        [List.replicate 7 1, List.replicate 3 2].map Frame.binary)).stats.binary_transfers_completed
      = 0 + 1 ∧
    (runSession (ConnectionStats.fresh "1.2.3.4:5") ServerStats.fresh
      (.text ⟨"\x7b\"type\": \"binary_start\", \"msg_id\": \"2\", \"size\": 10\x7d",
        some (.obj [("type", .str "binary_start"), ("msg_id", .str "2"),
                    ("size", .num 10)])⟩ ::
        [List.replicate 7 1, List.replicate 3 2].map Frame.binary)).stats.current_binary_expected
      = .num 0 ∧
    (runSession (ConnectionStats.fresh "1.2.3.4:5") ServerStats.fresh
      (.text ⟨"\x7b\"type\": \"binary_start\", \"msg_id\": \"2\", \"size\": 10\x7d",
        some (.obj [("type", .str "binary_start"), ("msg_id", .str "2"),
                    ("size", .num 10)])⟩ ::
        [List.replicate 7 1, List.replicate 3 2].map Frame.binary)).stats.current_binary_received
      = 0 :=
  exact_transfer_completes (ConnectionStats.fresh "1.2.3.4:5")
    ServerStats.fresh
    ⟨"\x7b\"type\": \"binary_start\", \"msg_id\": \"2\", \"size\": 10\x7d",
      some (.obj [("type", .str "binary_start"), ("msg_id", .str "2"),
                  ("size", .num 10)])⟩
    [("type", .str "binary_start"), ("msg_id", .str "2"), ("size", .num 10)]
    10 [List.replicate 7 1, List.replicate 3 2]
    rfl rfl rfl (by norm_num) (by norm_num)

/-- A text step either leaves the transfer-progress fields untouched, or
it is the `binary_start` branch, which stores the declared size and zeroes
the progress count (whether or not the log interpolation then raises). -/
theorem text_step_binary_fields (stats : ConnectionStats)
    (server : ServerStats) (payload : TextPayload) :
    ((handle_text_message stats server payload).stats.current_binary_expected
        = stats.current_binary_expected ∧
     (handle_text_message stats server payload).stats.current_binary_received
        = stats.current_binary_received) ∨
    (∃ fields, payload.parsed = some (.obj fields) ∧
      pyEqStr ((fields.lookup "type").getD (.str "unknown")) "binary_start"
        = true ∧
      (handle_text_message stats server payload).stats.current_binary_expected
        = (fields.lookup "size").getD (.num 0) ∧
      (handle_text_message stats server payload).stats.current_binary_received
        = 0) := by
  unfold handle_text_message echoText
  rcases hP : payload.parsed with _ | parsed
  · simp only [hP]
    left
    exact ⟨by trivial, by trivial⟩
  · simp only [hP]
    cases htr : parsed.truthy with
    | false =>
      simp only [htr, Bool.false_eq_true, if_false]
      left
      exact ⟨by trivial, by trivial⟩
    | true =>
      simp only [htr, if_true]
      cases parsed with
      | obj fields =>
        by_cases hHello :
            pyEqStr ((fields.lookup "type").getD (.str "unknown")) "hello" = true
        · simp only [hHello, if_true]
          left
          exact ⟨by trivial, by trivial⟩
        · simp only [hHello, Bool.false_eq_true, if_false]
          by_cases hBS :
              pyEqStr ((fields.lookup "type").getD (.str "unknown")) "binary_start" = true
          · simp only [hBS, if_true]
            refine Or.inr ⟨fields, by trivial, hBS, ?_⟩
            split <;> exact ⟨by trivial, by trivial⟩
          · simp only [hBS, Bool.false_eq_true, if_false]
            left
            repeat' split
            all_goals exact ⟨by trivial, by trivial⟩
      | null => left; exact ⟨by trivial, by trivial⟩
      | bool b => left; exact ⟨by trivial, by trivial⟩
      | num n => left; exact ⟨by trivial, by trivial⟩
      | str s => left; exact ⟨by trivial, by trivial⟩
      | arr elems => left; exact ⟨by trivial, by trivial⟩

/-- One handler step preserves the transfer invariant, provided any
`binary_start` in the frame declares a non-negative integer size. -/
theorem step_preserves_binary_inv (stats : ConnectionStats)
    (server : ServerStats) (f : Frame)
    (hsz : binaryStartSizeOk f = true)
    (hg : goodExpected stats) (hinv : noOverfill stats) :
    goodExpected (handleFrame stats server f).stats ∧
    noOverfill (handleFrame stats server f).stats := by
  cases f with
  | binary data =>
    simp only [handleFrame]
    obtain ⟨n, hn0, he⟩ := hg
    rcases eq_or_lt_of_le hn0 with hz | hpos
    · obtain ⟨o1, e1, r1, c1⟩ :=
        binary_step_no_transfer stats server data (by rw [he, ← hz])
      refine ⟨⟨0, le_refl 0, e1⟩, ?_⟩
      intro e hee hpe
      rw [e1] at hee
      injection hee with h2
      omega
    · by_cases hge : n ≤ ((stats.current_binary_received + data.length : Nat) : Int)
      · obtain ⟨o1, e1, r1, c1⟩ :=
          binary_step_completes stats server data n he hpos hge
        refine ⟨⟨0, le_refl 0, e1⟩, ?_⟩
        intro e hee hpe
        rw [e1] at hee
        injection hee with h2
        omega
      · push_neg at hge
        obtain ⟨o1, e1, r1, c1⟩ :=
          binary_step_progress stats server data n he hpos hge
        refine ⟨⟨n, hn0, e1⟩, ?_⟩
        intro e hee hpe
        rw [e1] at hee
        injection hee with h2
        rw [r1]
        rw [← h2]
        exact_mod_cast hge
  | text payload =>
    simp only [handleFrame]
    rcases text_step_binary_fields stats server payload with
      ⟨he1, hr1⟩ | ⟨fields, hP, hBS, he1, hr1⟩
    · obtain ⟨n, hn0, he⟩ := hg
      refine ⟨⟨n, hn0, by rw [he1, he]⟩, ?_⟩
      intro e hee hpe
      rw [he1] at hee
      rw [hr1]
      exact hinv e hee hpe
    · unfold binaryStartSizeOk at hsz
      simp only [hP, hBS, if_true] at hsz
      rcases hsize : (fields.lookup "size").getD (.num 0) with _ | b | n | s | elems | flds <;>
        simp only [hsize] at hsz
      · exact absurd hsz (by simp)
      · exact absurd hsz (by simp)
      · have hn : (0 : Int) ≤ n := of_decide_eq_true hsz
        refine ⟨⟨n, hn, by rw [he1, hsize]⟩, ?_⟩
        intro e hee hpe
        rw [he1, hsize] at hee
        injection hee with h2
        rw [hr1]
        exact_mod_cast hpe
      · exact absurd hsz (by simp)
      · exact absurd hsz (by simp)
      · exact absurd hsz (by simp)

/-- The transfer invariant holds after any run whose `binary_start` frames
all declare non-negative integer sizes (completed or not). -/
theorem run_preserves_binary_inv (frames : List Frame) :
    ∀ (stats : ConnectionStats) (server : ServerStats),
    frames.all binaryStartSizeOk = true →
    goodExpected stats → noOverfill stats →
    goodExpected (runSession stats server frames).stats ∧
    noOverfill (runSession stats server frames).stats := by
  induction frames with
  | nil => intro stats server _ hg hinv; exact ⟨hg, hinv⟩
  | cons f rest ih =>
    intro stats server hall hg hinv
    simp only [List.all_cons, Bool.and_eq_true] at hall
    obtain ⟨hg', hinv'⟩ :=
      step_preserves_binary_inv stats server f hall.1 hg hinv
    by_cases hfok : (handleFrame stats server f).ok = true
    · simp only [runSession, hfok, if_true]
      exact ih _ _ hall.2 hg' hinv'
    · simp only [Bool.not_eq_true] at hfok
      simp only [runSession, hfok, Bool.false_eq_true, if_false]
      exact ⟨hg', hinv'⟩

/-- C10: starting from a fresh session, if every `binary_start` declares a
non-negative integer size, then after the handler steps of a completed run
the session is never observably over-full: whenever
`current_binary_expected` is a positive integer, `current_binary_received`
is strictly below it (a reached threshold is consumed and reset within the
same step). -/
theorem no_observable_overfill (client : String) (frames : List Frame)
    (hsz : frames.all binaryStartSizeOk = true)
    (hok : (runSession (ConnectionStats.fresh client) ServerStats.fresh
      frames).ok = true) :
    noOverfill (runSession (ConnectionStats.fresh client) ServerStats.fresh
      frames).stats := by
  have h0 : goodExpected (ConnectionStats.fresh client) := ⟨0, le_refl 0, rfl⟩
  have h1 : noOverfill (ConnectionStats.fresh client) := by
    intro e hee hpe
    injection hee with h2
  exact (run_preserves_binary_inv frames _ _ hsz h0 h1).2

/-- C10 witness: after `binary_start` of size 10 and one 4-byte chunk, the
accumulated count 4 is strictly below the expected 10. -/
theorem no_observable_overfill_witness :
    ([Frame.text ⟨"\x7b\"type\": \"binary_start\", \"size\": 10\x7d",
        some (.obj [("type", .str "binary_start"), ("size", .num 10)])⟩,
      Frame.binary [1, 2, 3, 4]].all binaryStartSizeOk = true) ∧
    (runSession (ConnectionStats.fresh "1.2.3.4:5") ServerStats.fresh
      [Frame.text ⟨"\x7b\"type\": \"binary_start\", \"size\": 10\x7d",
        some (.obj [("type", .str "binary_start"), ("size", .num 10)])⟩,
       Frame.binary [1, 2, 3, 4]]).ok = true ∧
    ((runSession (ConnectionStats.fresh "1.2.3.4:5") ServerStats.fresh
      [Frame.text ⟨"\x7b\"type\": \"binary_start\", \"size\": 10\x7d",
        some (.obj [("type", .str "binary_start"), ("size", .num 10)])⟩,
       Frame.binary [1, 2, 3, 4]]).stats.current_binary_received : Int) < 10 :=
  ⟨by decide, rfl,
    no_observable_overfill "1.2.3.4:5"
      [Frame.text ⟨"\x7b\"type\": \"binary_start\", \"size\": 10\x7d",
        some (.obj [("type", .str "binary_start"), ("size", .num 10)])⟩,
       Frame.binary [1, 2, 3, 4]]
      (by decide) rfl 10 rfl (by norm_num)⟩

end EchoServer
